import Mathlib

/-!
Shallow embedding of `src/stactools/geoparquet_items/commands.py` (the
`create` and `convert` commands of the stactools geoparquet-items package),
together with theorems settling the specification claims.

The Python string operations used by the code (`startswith`, `endswith`,
`split`, `strip`) are modelled by executable functions over `String.data`
(lists of characters), because the corresponding core `String` functions do
not reduce in the kernel.  External collaborators (HTTP retrieval, `os.walk`,
`json.load`, the dask scheduler, `stac_geoparquet.to_geodataframe`, the
parquet codec) are modelled by their observable effect on the data flowing
through the command, never re-specified: a Table Batch is identified with the
list of records it was built from, and a parquet write is recorded as the
pair of the target path and the batch written there.
-/

namespace GeoparquetItems

/-- Character-list test that `cs` begins with `pre` (model of Python
`str.startswith` on the underlying character sequence). -/
def listBeginsWith : List Char → List Char → Bool
  | _, [] => true
  | [], _ :: _ => false
  | c :: cs, d :: ds => c == d && listBeginsWith cs ds

/-- Model of Python `s.startswith(pre)`. -/
def strBeginsWith (s pre : String) : Bool :=
  listBeginsWith s.data pre.data

/-- Model of Python `s.endswith(suf)`: the reversed string begins with the
reversed suffix. -/
def strEndsWith (s suf : String) : Bool :=
  listBeginsWith s.data.reverse suf.data.reverse

/-- Splitting a character list at every occurrence of the separator
character.  Mirrors Python `str.split(sep)` for a one-character `sep`:
the empty string yields `[""]`, adjacent separators yield empty pieces. -/
def splitCharAux (sep : Char) : List Char → List Char → List (List Char)
  | acc, [] => [acc.reverse]
  | acc, c :: cs =>
    if c == sep then acc.reverse :: splitCharAux sep [] cs
    else splitCharAux sep (c :: acc) cs

/-- Model of Python `s.split(sep)` for a one-character separator `sep`. -/
def strSplitChar (s : String) (sep : Char) : List String :=
  (splitCharAux sep [] s.data).map String.mk

/-- Drops leading characters satisfying `p`. -/
def listDropWhile (p : Char → Bool) : List Char → List Char
  | [] => []
  | c :: cs => if p c then listDropWhile p cs else c :: cs

/-- Model of Python `s.strip()`: remove leading and trailing whitespace. -/
def strStrip (s : String) : String :=
  String.mk ((listDropWhile Char.isWhitespace
    (listDropWhile Char.isWhitespace s.data).reverse).reverse)

/-- JSON values, the shape of the data handled by `json.load`,
`response.json()` and the collection document rewrite. -/
inductive Json where
  | null
  | bool (b : Bool)
  | num (n : Int)
  | str (s : String)
  | arr (elems : List Json)
  | obj (fields : List (String × Json))

/-- First-match lookup in a JSON object's field list (Python `dict`
subscripting / `dict.get`; keys of a parsed JSON object are unique, so
first-match agrees with the dictionary). -/
def lookupField : List (String × Json) → String → Option Json
  | [], _ => none
  | (k, v) :: rest, key => if k = key then some v else lookupField rest key

/-- `item.get(key)` on a JSON value, defined on objects. -/
def Json.getField : Json → String → Option Json
  | .obj fields, key => lookupField fields key
  | _, _ => none

/-- The filter `item["type"] == "Feature"` applied by the local-directory
extraction paths (`commands.py` lines 99 and 117).  A record lacking the
`type` key would raise `KeyError` in Python; the spec's data model requires
every Feature Record to carry a `type` field and all claims quantify over
records that do, so the missing-key case is mapped to `false` rather than
modelled as an exception. -/
def isFeature (item : Json) : Bool :=
  match item.getField "type" with
  | some (.str t) => t == "Feature"
  | _ => false

/-! ## The `convert` command (lines 177-209) -/

/-- `IGNORE_FIELDS = ["stac_version", "type", "assets"]` (line 22). -/
def IGNORE_FIELDS : List String := ["stac_version", "type", "assets"]

/-- The errors `convert_command` can raise: the explicit
`Exception("Source file does not exist")` (line 190) and the `ValueError`
raised by `list.remove` when the element is absent (line 204). -/
inductive ConvertError where
  | sourceMissing
  | valueError
deriving DecidableEq

/-- Resolution of the `--exclude` option (lines 192-197):
`None` falls back to `IGNORE_FIELDS`; the exact strings `"none"` and
`"NONE"` give the empty list; anything else is split on commas. -/
def resolveExclude : Option String → List String
  | none => IGNORE_FIELDS
  | some e => if e = "none" ∨ e = "NONE" then [] else strSplitChar e ','

/-- Python `columns.remove(x)` (line 204): removes the first occurrence of
`x`, raises `ValueError` when `x` does not occur. -/
def listRemove : List String → String → Except ConvertError (List String)
  | [], _ => .error .valueError
  | y :: ys, x =>
    if y = x then .ok ys
    else (listRemove ys x).map (fun zs => y :: zs)

/-- The loop `for col in to_exclude: columns.remove(col.strip())`
(lines 203-204), starting from a copy of the schema's column names. -/
def removeColumns : List String → List String → Except ConvertError (List String)
  | columns, [] => .ok columns
  | columns, col :: rest =>
    match listRemove columns (strStrip col) with
    | .ok columns1 => removeColumns columns1 rest
    | .error e => .error e

/-- `convert_command` (lines 177-209), modelled up to the column selection
passed to `geopandas.read_parquet`: `sourceExists` is `os.path.exists(source)`,
`schemaNames` is `pq.read_schema(source).names`, and the result is the
`columns` argument of the read (`none` = load all columns). -/
def convert (sourceExists : Bool) (schemaNames : List String)
    (exclude : Option String) : Except ConvertError (Option (List String)) :=
  if !sourceExists then .error .sourceMissing
  else
    let to_exclude := resolveExclude exclude
    if 0 < to_exclude.length then
      (removeColumns schemaNames to_exclude).map some
    else
      .ok none

/-- The set of columns actually materialised by
`geopandas.read_parquet(source, columns=columns)`: all schema columns when
`columns` is `None`, exactly the given list otherwise. -/
def exportedColumns (schemaNames : List String) :
    Option (List String) → List String
  | none => schemaNames
  | some cols => cols

/-! ## The `create` command (lines 48-152) -/

/-- One file produced by the recursive walk `os.walk(source)` (lines 82-90):
the directory `root` it was found under (at any depth), its base `name`, and
the JSON value obtained by opening and parsing it (`json.load`, line 116;
per-partition `json.loads` after `read_text`, lines 97-98). -/
structure FileEntry where
  root : String
  name : String
  content : Json

/-- The external environment one `create` invocation observes. -/
structure World where
  /-- The `features` field of `requests.get(source).json()` (line 72), when
  present: `response.json().get("features")` for an array-valued field.
  `none` models an absent `features` key. -/
  responseFeatures : Option (List Json)
  /-- `os.path.exists(source)` (line 79). -/
  pathExists : Bool
  /-- The flattened output of `os.walk(source)` (lines 82-90). -/
  files : List FileEntry
  /-- The parsed content of the collection document named by the
  `--collection` option (`json.load(f)`, line 135), as an object field list. -/
  collectionDoc : List (String × Json)

/-- The exceptions `create_command` can raise on the modelled paths:
`noItems` is `Exception("Aborting, no items available")` (line 131);
`unboundLocalPaths` is the `UnboundLocalError` raised by `for p in paths:`
(line 114) when `paths` was never assigned, which happens whenever the
source is not an existing local directory and `bag` stayed `None`. -/
inductive CreateError where
  | noItems
  | unboundLocalPaths
deriving DecidableEq

/-- The observable outcome of one `create` invocation: whether the
destination directory was created (`p.mkdir()`, line 64), the parquet writes
performed (target path and the record batch written there), the content
written back to the collection document (when the linker ran), and the
exception raised (when one was). -/
structure CreateOutcome where
  dirCreated : Bool
  writes : List (String × List Json)
  collectionUpdated : Option (List (String × Json))
  error : Option CreateError

/-- `source.startswith("https://") or source.startswith("http://")`
(line 69). -/
def isRemoteSource (source : String) : Bool :=
  strBeginsWith source "https://" || strBeginsWith source "http://"

/-- The per-file test of the walk loop (lines 84-90): keep names ending in
`.json`, except the names literally equal to `catalog.json` or
`collection.json`. -/
def keepItemFile (name : String) : Bool :=
  if !strEndsWith name ".json" then false
  else if name = "catalog.json" ∨ name = "collection.json" then false
  else true

/-- The path list collected by the walk (lines 81-90). -/
def collectJsonFiles (files : List FileEntry) : List FileEntry :=
  files.filter (fun f => keepItemFile f.name)

/-- Contiguous chunks of size `size`; the fuel argument (instantiated with
the list length) guarantees termination. -/
def chunkAux {α : Type} : Nat → Nat → List α → List (List α)
  | _, _, [] => []
  | 0, _, _ :: _ => []
  | fuel + 1, size, xs => xs.take size :: chunkAux fuel size (xs.drop size)

/-- Modelled from `dask.bag.from_sequence(seq, npartitions=n)` (lines 77 and
96): the sequence is split into contiguous chunks of size
`ceil(len(seq) / n)`; the chunks are the bag's partitions, in order. -/
def fromSequence {α : Type} (xs : List α) (nparts : Nat) : List (List α) :=
  chunkAux xs.length ((xs.length + nparts - 1) / nparts) xs

/-- The task list built by `enumerate(dfs)` (lines 107-110): partition `i`
(in submission order, zero-based, starting from `i0`) is written to
`f"{destination}/part.{i}.parquet"`. -/
def partitionWritesAux (destination : String) :
    Nat → List (List Json) → List (String × List Json)
  | _, [] => []
  | i, b :: bs =>
    (destination ++ "/part." ++ Nat.repr i ++ ".parquet", b)
      :: partitionWritesAux destination (i + 1) bs

/-- All partition writes of one partitioned run (lines 104-111). -/
def partitionWrites (destination : String) (batches : List (List Json)) :
    List (String × List Json) :=
  partitionWritesAux destination 0 batches

/-! ### Collection Linker (lines 133-151) -/

/-- Python `dict` assignment `d[k] = v` on an object field list: the value of
an existing key is replaced in place, a new key is appended. -/
def setKey : List (String × Json) → String → Json → List (String × Json)
  | [], k, v => [(k, v)]
  | (k1, v1) :: rest, k, v =>
    if k1 = k then (k, v) :: rest else (k1, v1) :: setKey rest k v

/-- The asset object assigned to `collection_json["assets"]["geoparquet-items"]`
(lines 140-145). -/
def geoparquetAsset (href : String) : Json :=
  .obj [("href", .str href),
        ("type", .str "application/x-parquet"),
        ("roles", .arr [.str "stac-items"]),
        ("title", .str "GeoParquet STAC Items")]

/-- The in-memory document update (lines 136-145): create an empty `assets`
object when the key is absent, then insert/overwrite `geoparquet-items`.
When `assets` is present but not an object Python would raise; that case is
excluded by hypothesis in the theorems and left as the identity here. -/
def updateCollectionDoc (doc : List (String × Json)) (href : String) :
    List (String × Json) :=
  let doc1 := match lookupField doc "assets" with
    | none => setKey doc "assets" (.obj [])
    | some _ => doc
  match lookupField doc1 "assets" with
  | some (.obj assets) =>
      setKey doc1 "assets" (.obj (setKey assets "geoparquet-items" (geoparquetAsset href)))
  | _ => doc1

/-- Joins path components with slashes. -/
def joinComponents : List String → String
  | [] => ""
  | [c] => c
  | c :: cs => c ++ "/" ++ joinComponents cs

/-- Model of Python `os.path.dirname`: everything before the final slash,
the empty string when there is none. -/
def dirname (s : String) : String :=
  let parts := strSplitChar s '/'
  match parts with
  | [] => ""
  | [_] => ""
  | _ => joinComponents parts.dropLast

/-- The non-empty slash-separated components of a path. -/
def pathComponents (s : String) : List String :=
  (strSplitChar s '/').filter (fun c => c ≠ "")

/-- Drops the longest common leading run of two component lists, returning
both remainders. -/
def splitCommon : List String → List String → List String × List String
  | p :: ps, s :: ss =>
    if p = s then splitCommon ps ss else (p :: ps, s :: ss)
  | ps, ss => (ps, ss)

/-- Model of `os.path.relpath(path, start)` (line 141) for already-absolute
or cwd-relative normalised paths (`os.path.abspath` on line 139 is the
identity in this model): drop the common leading components, go up once per
remaining `start` component, then descend into the remaining `path`
components. -/
def relpath (path start : String) : String :=
  let rem := splitCommon (pathComponents path) (pathComponents start)
  let comps := rem.2.map (fun _ => "..") ++ rem.1
  match comps with
  | [] => "."
  | _ => joinComponents comps

/-- File content after `f.seek(0)` followed by writing `new` without
truncation: the overwritten head is `new`, and whatever part of the old
content lies beyond `new`'s length survives. -/
def writeAtStart (old new : List Char) : List Char :=
  new ++ old.drop new.length

/-- `f.seek(0); json.dump(...); f.truncate()` (lines 147-149): write at the
start, then truncate at the position reached, i.e. at `new.length`. -/
def rewriteInPlace (old new : List Char) : List Char :=
  (writeAtStart old new).take new.length

/-! ### The command body -/

/-- The tail of `create_command` after the parquet writes succeeded
(lines 133-151): when a collection path was given, the document is updated
and written back; otherwise nothing further happens.  The `href` of the new
asset is the destination path relative to the collection document's
directory. -/
def finishCreate (dirCreated : Bool) (writes : List (String × List Json))
    (collection destination : String) (w : World) : CreateOutcome :=
  if 0 < collection.length then
    { dirCreated := dirCreated, writes := writes,
      collectionUpdated :=
        some (updateCollectionDoc w.collectionDoc
          (relpath destination (dirname collection))),
      error := none }
  else
    { dirCreated := dirCreated, writes := writes,
      collectionUpdated := none, error := none }

/-- `create_command(source, destination, collection, partition)`
(lines 48-152).  The structure mirrors the Python control flow:
destination clearing (lines 57-61) is implicit in `writes` describing only
this run's files; `p.mkdir()` runs exactly when `partition > 1` (line 63);
the source branch (lines 69-100) either materialises the remote `features`,
or collects and (lazily or eagerly) parses local files, assigning `bag`
only in the two partitioned sub-branches; the write phase (lines 102-131)
follows `bag`: partitioned writes via `enumerate`, else the eager loop over
`paths` — which raises `UnboundLocalError` whenever `paths` was never
assigned (remote or invalid source with `bag is None`) — then the
no-items check and the single write.  The Python locals `items` and `paths`
are inlined here: `items` is `w.responseFeatures.getD []` on the remote
branch and the `isFeature`-filtered parsed contents on the local one,
`paths` is `collectJsonFiles w.files`. -/
def create (source destination collection : String) (partition : Int)
    (w : World) : CreateOutcome :=
  if isRemoteSource source then
    if 1 < partition then
      finishCreate true
        (partitionWrites destination
          (fromSequence (w.responseFeatures.getD []) partition.toNat))
        collection destination w
    else
      { dirCreated := false, writes := [], collectionUpdated := none,
        error := some .unboundLocalPaths }
  else if w.pathExists then
    if 1 < partition then
      finishCreate true
        (partitionWrites destination
          ((fromSequence (collectJsonFiles w.files) partition.toNat).map
            (fun chunk => (chunk.map FileEntry.content).filter isFeature)))
        collection destination w
    else
      if 0 < (((collectJsonFiles w.files).map FileEntry.content).filter
          isFeature).length then
        finishCreate false
          [(destination,
            ((collectJsonFiles w.files).map FileEntry.content).filter isFeature)]
          collection destination w
      else
        { dirCreated := false, writes := [], collectionUpdated := none,
          error := some .noItems }
  else
    { dirCreated := decide (1 < partition), writes := [],
      collectionUpdated := none, error := some .unboundLocalPaths }

/-! ### Concrete sample data for the closed theorems -/

/-- A record with `type == "Feature"`. -/
def featureItemA : Json := .obj [("type", .str "Feature"), ("id", .str "item1")]

/-- A second record with `type == "Feature"`. -/
def featureItemB : Json := .obj [("type", .str "Feature"), ("id", .str "item2")]

/-- A record whose `type` is not `"Feature"`. -/
def nonFeatureItem : Json := .obj [("type", .str "Collection"), ("id", .str "cat")]

/-- An environment for a remote source: the retrieved body has a one-element
`features` array; no local path exists. -/
def remoteWorldOne : World :=
  { responseFeatures := some [featureItemA], pathExists := false, files := [],
    collectionDoc := [] }

/-- An environment for a remote source whose retrieved body has no
`features` key. -/
def remoteWorldEmpty : World :=
  { responseFeatures := none, pathExists := false, files := [],
    collectionDoc := [] }

/-- An environment for a local source directory holding two item files, a
`catalog.json`, a nested `collection.json` and a non-JSON file, plus a
collection document on disk. -/
def localWorld : World :=
  { responseFeatures := none, pathExists := true,
    files := [⟨"d", "item1.json", featureItemA⟩,
              ⟨"d", "catalog.json", nonFeatureItem⟩,
              ⟨"d/sub", "collection.json", nonFeatureItem⟩,
              ⟨"d/sub", "item2.json", featureItemB⟩,
              ⟨"d", "readme.txt", .null⟩],
    collectionDoc := [("id", .str "c")] }

end GeoparquetItems

section Scratch
open GeoparquetItems
example : strBeginsWith "https://x" "https://" = true := rfl
example : strBeginsWith "items" "http://" = false := rfl
example : strSplitChar "" ',' = [""] := rfl
example : strSplitChar "a, b,c" ',' = ["a", " b", "c"] := rfl
example : strStrip " b " = "b" := rfl
example : resolveExclude none = ["stac_version", "type", "assets"] := rfl
example : resolveExclude (some "none") = [] := rfl
example : resolveExclude (some "None") = ["None"] := rfl
example : convert true ["id", "geometry"] none = .error .valueError := rfl
example : convert true ["id", "type"] (some "type") = .ok (some ["id"]) := rfl
example : convert true ["id"] (some "") = .error .valueError := rfl
example : convert false ["id"] none = .error .sourceMissing := rfl
example : convert true ["id"] (some "NONE") = .ok none := rfl
example :
    (create "https://example.com/items.json" "out.parquet" "" 1 remoteWorldOne).error
      = some .unboundLocalPaths := rfl
example :
    (create "https://example.com/items.json" "out.parquet" "" 1 remoteWorldOne).writes
      = [] := rfl
example :
    (create "d" "out.parquet" "" 1 localWorld).writes
      = [("out.parquet", [featureItemA, featureItemB])] := rfl
example : (create "d" "out.parquet" "" 1 localWorld).error = none := rfl
example :
    (create "d" "outdir" "" 2 localWorld).writes
      = [("outdir/part.0.parquet", [featureItemA]),
         ("outdir/part.1.parquet", [featureItemB])] := rfl
example :
    (create "https://x" "outdir" "" 2
      { remoteWorldOne with responseFeatures := some [nonFeatureItem] }).writes
      = [("outdir/part.0.parquet", [nonFeatureItem])] := rfl
example : (create "missing" "out.parquet" "" 1
    { localWorld with pathExists := false }) =
    { dirCreated := false, writes := [], collectionUpdated := none,
      error := some .unboundLocalPaths } := rfl
example : dirname "/c/collection.json" = "/c" := rfl
example : relpath "out.parquet" (dirname "/c/collection.json") = "../out.parquet" := rfl
example : relpath "/c/out.parquet" (dirname "/c/collection.json") = "out.parquet" := rfl
example :
    (create "d" "out.parquet" "/c/collection.json" 1 localWorld).collectionUpdated
      = some [("id", .str "c"),
              ("assets", .obj [("geoparquet-items", geoparquetAsset "../out.parquet")])] := rfl
example : rewriteInPlace "longcontent".data "new".data = "new".data := rfl
end Scratch

namespace GeoparquetItems

/-! ## Helper lemmas -/

theorem listRemove_absent (xs : List String) (x : String) (h : x ∉ xs) :
    listRemove xs x = .error .valueError := by
  induction xs with
  | nil => rfl
  | cons y ys ih =>
    rw [listRemove, if_neg (fun hyx => by subst hyx; exact h (List.mem_cons_self y ys)),
      ih (fun hm => h (List.mem_cons_of_mem y hm))]
    rfl

theorem listRemove_subset (xs : List String) (x : String) (ys : List String)
    (h : listRemove xs x = .ok ys) : ∀ a ∈ ys, a ∈ xs := by
  induction xs generalizing ys with
  | nil => cases h
  | cons y zs ih =>
    intro a ha
    rw [listRemove] at h
    by_cases hyx : y = x
    · rw [if_pos hyx] at h
      cases h
      exact List.mem_cons_of_mem y ha
    · rw [if_neg hyx] at h
      cases hrec : listRemove zs x with
      | error e => rw [hrec] at h; cases h
      | ok ws =>
        rw [hrec] at h
        cases h
        cases ha with
        | head => exact List.mem_cons_self _ _
        | tail _ htail => exact List.mem_cons_of_mem y (ih ws hrec a htail)

theorem listRemove_mem_ok (xs : List String) (x : String) (h : x ∈ xs) :
    ∃ ys, listRemove xs x = .ok ys := by
  induction xs with
  | nil => exact absurd h (List.not_mem_nil x)
  | cons y zs ih =>
    rw [listRemove]
    by_cases hyx : y = x
    · exact ⟨zs, by rw [if_pos hyx]⟩
    · have hx : x ∈ zs := by
        cases h with
        | head => exact absurd rfl hyx
        | tail _ htail => exact htail
      obtain ⟨ws, hws⟩ := ih hx
      exact ⟨y :: ws, by rw [if_neg hyx, hws]; rfl⟩

theorem removeColumns_absent (cols ex : List String)
    (h : ∃ c ∈ ex, strStrip c ∉ cols) :
    removeColumns cols ex = .error .valueError := by
  induction ex generalizing cols with
  | nil =>
    obtain ⟨c, hc, _⟩ := h
    exact absurd hc (List.not_mem_nil c)
  | cons c rest ih =>
    obtain ⟨d, hd, habs⟩ := h
    rw [removeColumns]
    rcases List.mem_cons.mp hd with rfl | hdrest
    · rw [listRemove_absent cols (strStrip d) habs]
    · by_cases hmem : strStrip c ∈ cols
      · obtain ⟨cols1, hok⟩ := listRemove_mem_ok cols (strStrip c) hmem
        rw [hok]
        exact ih cols1
          ⟨d, hdrest, fun hm => habs (listRemove_subset _ _ _ hok (strStrip d) hm)⟩
      · rw [listRemove_absent cols (strStrip c) hmem]

/-- Shared core of the absent-exclusion-entry behaviour of `convert`: if any
resolved exclusion entry, after stripping, is not among the schema's column
names, the column-removal loop raises `ValueError`. -/
theorem convert_absent_entry (schemaNames : List String) (exclude : Option String)
    (h : ∃ c ∈ resolveExclude exclude, strStrip c ∉ schemaNames) :
    convert true schemaNames exclude = .error .valueError := by
  have hlen : 0 < (resolveExclude exclude).length := by
    obtain ⟨c, hc, _⟩ := h
    exact List.length_pos.mpr (fun hnil => absurd (hnil ▸ hc) (List.not_mem_nil c))
  have herr := removeColumns_absent schemaNames (resolveExclude exclude) h
  unfold convert
  rw [if_neg (by decide), if_pos hlen, herr]
  rfl

/-! ## Claim C2 -/

/-- C2, counterexample: with an existing source whose schema is
`["id", "geometry"]` and the default exclusion set (which contains
`stac_version`, absent from the schema), `convert` does not proceed with the
export — it fails with the `ValueError` raised by `list.remove` — refuting
the claim that an absent exclusion entry is silently ignored. -/
theorem c2_counterexample :
    convert true ["id", "geometry"] none = Except.error ConvertError.valueError := rfl

/-- C2 (amended): whenever the resolved Column Exclusion Set contains an
entry whose stripped form is not among the source schema's column names,
`convert` raises `ValueError` from `columns.remove` instead of ignoring the
entry; the export does not proceed. -/
theorem c2_absent_exclusion_entry_raises (schemaNames : List String)
    (exclude : Option String)
    (h : ∃ c ∈ resolveExclude exclude, strStrip c ∉ schemaNames) :
    convert true schemaNames exclude = Except.error ConvertError.valueError :=
  convert_absent_entry schemaNames exclude h

/-- C2, witness: the amended theorem applied at the schema
`["id", "geometry"]` and the explicit exclusion list `"missing_column"`. -/
theorem c2_witness :
    convert true ["id", "geometry"] (some "missing_column")
      = Except.error ConvertError.valueError :=
  c2_absent_exclusion_entry_raises ["id", "geometry"] (some "missing_column")
    ⟨"missing_column", by decide, by decide⟩

/-! ## Claim C6 -/

/-- C6, counterexample: passing `"None"` (mixed case) for the exclude option
does not resolve the exclusion set to empty — it is treated as the one-entry
column list `["None"]` — and on the schema `["id", "geometry"]` the export
does not proceed but fails with `ValueError`, refuting the claim that every
letter casing of `none` exports all columns. -/
theorem c6_counterexample :
    resolveExclude (some "None") = ["None"]
    ∧ convert true ["id", "geometry"] (some "None")
        = Except.error ConvertError.valueError :=
  ⟨rfl, rfl⟩

/-- C6 (amended): only the exact spellings `"none"` and `"NONE"` of the
exclude option resolve the exclusion set to empty and export all columns of
the source schema unmodified; every other string (including other casings
such as `"None"` or `"nOnE"`) is treated as an ordinary comma-separated
column list. -/
theorem c6_exact_none_spellings :
    (∀ schemaNames : List String,
        convert true schemaNames (some "none") = Except.ok none
        ∧ convert true schemaNames (some "NONE") = Except.ok none
        ∧ exportedColumns schemaNames none = schemaNames)
    ∧ (∀ e : String, e ≠ "none" → e ≠ "NONE" →
        resolveExclude (some e) = strSplitChar e ',') := by
  constructor
  · intro schemaNames
    exact ⟨rfl, rfl, rfl⟩
  · intro e h1 h2
    show (if e = "none" ∨ e = "NONE" then [] else strSplitChar e ',') = strSplitChar e ','
    rw [if_neg]
    rintro (h | h)
    · exact h1 h
    · exact h2 h

/-- C6, witness: the amended theorem applied at the schema
`["id", "geometry"]` with the spelling `"none"`, and at the mixed-case
spelling `"nOnE"`. -/
theorem c6_witness :
    convert true ["id", "geometry"] (some "none") = Except.ok none
    ∧ resolveExclude (some "nOnE") = strSplitChar "nOnE" ',' :=
  ⟨(c6_exact_none_spellings.1 ["id", "geometry"]).1,
   c6_exact_none_spellings.2 "nOnE" (by decide) (by decide)⟩

/-! ## Claim C10 -/

/-- C10: passing the empty string for the exclude option is not the same as
`none` — Python `"".split(",")` yields the single empty-string entry
`[""]` — and since the empty string is not among the schema's column names,
`columns.remove("")` raises `ValueError` and the export does not proceed. -/
theorem c10_empty_exclude_raises :
    resolveExclude (some "") = [""]
    ∧ ∀ schemaNames : List String, "" ∉ schemaNames →
        convert true schemaNames (some "") = Except.error ConvertError.valueError := by
  refine ⟨rfl, fun schemaNames hs => ?_⟩
  exact convert_absent_entry schemaNames (some "")
    ⟨"", List.mem_singleton.mpr rfl, hs⟩

/-! ## Helper lemmas for the `create` side -/

theorem finishCreate_writes (d : Bool) (wr : List (String × List Json))
    (c dest : String) (w : World) : (finishCreate d wr c dest w).writes = wr := by
  unfold finishCreate
  split <;> rfl

theorem finishCreate_error (d : Bool) (wr : List (String × List Json))
    (c dest : String) (w : World) : (finishCreate d wr c dest w).error = none := by
  unfold finishCreate
  split <;> rfl

theorem finishCreate_empty_collection (d : Bool) (wr : List (String × List Json))
    (dest : String) (w : World) :
    (finishCreate d wr "" dest w).collectionUpdated = none := rfl

theorem finishCreate_pos_collection (d : Bool) (wr : List (String × List Json))
    (c dest : String) (w : World) (hc : 0 < c.length) :
    (finishCreate d wr c dest w).collectionUpdated
      = some (updateCollectionDoc w.collectionDoc (relpath dest (dirname c))) := by
  unfold finishCreate
  rw [if_pos hc]

theorem partitionWritesAux_mem (dest : String) (pb : String × List Json) :
    ∀ (batches : List (List Json)) (j : Nat),
      pb ∈ partitionWritesAux dest j batches → pb.2 ∈ batches := by
  intro batches
  induction batches with
  | nil => intro j h; cases h
  | cons b bs ih =>
    intro j h
    rw [partitionWritesAux] at h
    rcases List.mem_cons.mp h with rfl | htail
    · exact List.mem_cons_self _ _
    · exact List.mem_cons_of_mem b (ih (j + 1) htail)

theorem partitionWritesAux_get (dest : String) :
    ∀ (batches : List (List Json)) (j i : Nat) (pb : String × List Json),
      (partitionWritesAux dest j batches).get? i = some pb →
      pb.1 = dest ++ "/part." ++ Nat.repr (j + i) ++ ".parquet" := by
  intro batches
  induction batches with
  | nil => intro j i pb h; cases h
  | cons b bs ih =>
    intro j i pb h
    cases i with
    | zero =>
      rw [partitionWritesAux] at h
      cases h
      rfl
    | succ i1 =>
      rw [partitionWritesAux] at h
      have := ih (j + 1) i1 pb h
      have harith : j + 1 + i1 = j + (i1 + 1) := by omega
      rw [harith] at this
      exact this

theorem lookupField_setKey_same (doc : List (String × Json)) (k : String) (v : Json) :
    lookupField (setKey doc k v) k = some v := by
  induction doc with
  | nil => simp [setKey, lookupField]
  | cons p rest ih =>
    obtain ⟨k1, v1⟩ := p
    by_cases h : k1 = k
    · subst h
      simp [setKey, lookupField]
    · simp only [setKey, if_neg h, lookupField]
      exact ih

theorem lookupField_setKey_other (doc : List (String × Json)) (k k' : String)
    (v : Json) (h : k' ≠ k) :
    lookupField (setKey doc k v) k' = lookupField doc k' := by
  induction doc with
  | nil =>
    simp only [setKey, lookupField]
    rw [if_neg (fun hh : k = k' => h hh.symm)]
  | cons p rest ih =>
    obtain ⟨k1, v1⟩ := p
    by_cases h1 : k1 = k
    · simp only [setKey, if_pos h1, lookupField]
      rw [if_neg (fun hh : k = k' => h hh.symm),
          if_neg (fun hh : k1 = k' => h (h1.symm.trans hh).symm)]
    · simp only [setKey, if_neg h1, lookupField]
      by_cases h2 : k1 = k'
      · rw [if_pos h2, if_pos h2]
      · rw [if_neg h2, if_neg h2]
        exact ih

theorem rewriteInPlace_eq (old new : List Char) :
    rewriteInPlace old new = new := by
  unfold rewriteInPlace writeAtStart
  exact List.take_left new (old.drop new.length)

theorem keepItemFile_iff (name : String) :
    keepItemFile name = true ↔
      strEndsWith name ".json" = true
        ∧ name ≠ "catalog.json" ∧ name ≠ "collection.json" := by
  unfold keepItemFile
  by_cases h1 : strEndsWith name ".json"
  · rw [h1]
    by_cases h2 : name = "catalog.json" ∨ name = "collection.json"
    · rw [if_neg (by simp), if_pos h2]
      constructor
      · intro hf
        exact absurd hf (by simp)
      · rintro ⟨-, h3, h4⟩
        rcases h2 with h2 | h2
        · exact absurd h2 h3
        · exact absurd h2 h4
    · rw [if_neg (by simp), if_neg h2]
      push_neg at h2
      simp [h1, h2.1, h2.2]
  · have h1f : strEndsWith name ".json" = false := by
      cases hv : strEndsWith name ".json"
      · rfl
      · exact absurd hv h1
    rw [h1f]
    simp

/-- Every `create` run either stops with an exception (and then no
collection update happened), or reaches the common tail `finishCreate`. -/
theorem create_cases (source destination collection : String) (partition : Int)
    (w : World) :
    ((create source destination collection partition w).error ≠ none
      ∧ (create source destination collection partition w).collectionUpdated = none)
    ∨ ∃ d wr, create source destination collection partition w
        = finishCreate d wr collection destination w := by
  by_cases hr : isRemoteSource source = true
  · by_cases hp : 1 < partition
    · right
      exact ⟨true,
        partitionWrites destination
          (fromSequence (w.responseFeatures.getD []) partition.toNat),
        by unfold create; rw [if_pos hr, if_pos hp]⟩
    · left
      refine ⟨?_, ?_⟩
      · unfold create
        rw [if_pos hr, if_neg hp]
        simp
      · unfold create
        rw [if_pos hr, if_neg hp]
  · by_cases hex : w.pathExists = true
    · by_cases hp : 1 < partition
      · right
        exact ⟨true,
          partitionWrites destination
            ((fromSequence (collectJsonFiles w.files) partition.toNat).map
              (fun chunk => (chunk.map FileEntry.content).filter isFeature)),
          by unfold create; rw [if_neg hr, if_pos hex, if_pos hp]⟩
      · by_cases hn : 0 < (((collectJsonFiles w.files).map FileEntry.content).filter
            isFeature).length
        · right
          exact ⟨false,
            [(destination,
              ((collectJsonFiles w.files).map FileEntry.content).filter isFeature)],
            by unfold create; rw [if_neg hr, if_pos hex, if_neg hp, if_pos hn]⟩
        · left
          refine ⟨?_, ?_⟩
          · unfold create
            rw [if_neg hr, if_pos hex, if_neg hp, if_neg hn]
            simp
          · unfold create
            rw [if_neg hr, if_pos hex, if_neg hp, if_neg hn]
    · left
      refine ⟨?_, ?_⟩
      · unfold create
        rw [if_neg hr, if_neg hex]
        simp
      · unfold create
        rw [if_neg hr, if_neg hex]

/-- With more than one partition, the parquet writes are either absent (an
exception was raised first) or exactly the enumerated partition writes. -/
theorem create_partitioned_writes (source destination collection : String)
    (partition : Int) (w : World) (hp : 1 < partition) :
    (create source destination collection partition w).writes = []
    ∨ ∃ batches, (create source destination collection partition w).writes
        = partitionWrites destination batches := by
  by_cases hr : isRemoteSource source = true
  · right
    refine ⟨fromSequence (w.responseFeatures.getD []) partition.toNat, ?_⟩
    unfold create
    rw [if_pos hr, if_pos hp, finishCreate_writes]
  · by_cases hex : w.pathExists = true
    · right
      refine ⟨(fromSequence (collectJsonFiles w.files) partition.toNat).map
        (fun chunk => (chunk.map FileEntry.content).filter isFeature), ?_⟩
      unfold create
      rw [if_neg hr, if_pos hex, if_pos hp, finishCreate_writes]
    · left
      unfold create
      rw [if_neg hr, if_neg hex]

/-- For a non-remote source the writes are empty, or one partitioned batch
list in which every batch was filtered by `isFeature`, or the single
filtered eager batch. -/
theorem create_local_writes (source destination collection : String)
    (partition : Int) (w : World) (hr : isRemoteSource source = false) :
    (create source destination collection partition w).writes = []
    ∨ (∃ chunks : List (List FileEntry),
        (create source destination collection partition w).writes
          = partitionWrites destination
              (chunks.map (fun chunk => (chunk.map FileEntry.content).filter isFeature)))
    ∨ (create source destination collection partition w).writes
        = [(destination,
            ((collectJsonFiles w.files).map FileEntry.content).filter isFeature)] := by
  have hr2 : ¬ isRemoteSource source = true := by
    simp [hr]
  by_cases hex : w.pathExists = true
  · by_cases hp : 1 < partition
    · right
      left
      refine ⟨fromSequence (collectJsonFiles w.files) partition.toNat, ?_⟩
      unfold create
      rw [if_neg hr2, if_pos hex, if_pos hp, finishCreate_writes]
    · by_cases hn : 0 < (((collectJsonFiles w.files).map FileEntry.content).filter
          isFeature).length
      · right
        right
        unfold create
        rw [if_neg hr2, if_pos hex, if_neg hp, if_pos hn, finishCreate_writes]
      · left
        unfold create
        rw [if_neg hr2, if_pos hex, if_neg hp, if_neg hn]
  · left
    unfold create
    rw [if_neg hr2, if_neg hex]

/-- The in-memory collection-document update: the result carries an `assets`
object whose `geoparquet-items` entry is exactly the new asset, and every
other top-level key is unchanged.  The hypothesis excludes the case of an
`assets` value that is not a JSON object (on which Python would raise). -/
theorem updateCollectionDoc_spec (doc : List (String × Json)) (href : String)
    (hwf : ∀ v, lookupField doc "assets" = some v → ∃ fs, v = Json.obj fs) :
    (∃ fs, lookupField (updateCollectionDoc doc href) "assets" = some (Json.obj fs)
        ∧ lookupField fs "geoparquet-items" = some (geoparquetAsset href))
    ∧ ∀ k, k ≠ "assets" →
        lookupField (updateCollectionDoc doc href) k = lookupField doc k := by
  unfold updateCollectionDoc
  cases hl : lookupField doc "assets" with
  | none =>
    simp only [hl]
    have h1 : lookupField (setKey doc "assets" (Json.obj [])) "assets"
        = some (Json.obj []) := lookupField_setKey_same doc "assets" (Json.obj [])
    simp only [h1]
    refine ⟨⟨setKey [] "geoparquet-items" (geoparquetAsset href),
      lookupField_setKey_same _ _ _, ?_⟩, ?_⟩
    · simp [setKey, lookupField]
    · intro k hk
      rw [lookupField_setKey_other _ _ _ _ hk, lookupField_setKey_other _ _ _ _ hk]
  | some v =>
    obtain ⟨fs, rfl⟩ := hwf v hl
    simp only [hl]
    refine ⟨⟨setKey fs "geoparquet-items" (geoparquetAsset href),
      lookupField_setKey_same _ _ _, lookupField_setKey_same _ _ _⟩, ?_⟩
    intro k hk
    exact lookupField_setKey_other _ _ _ _ hk

/-! ## Claim C1 -/

/-- C1, code bug: for a remote source retrieved with a non-empty `features`
array and partition count 1, `create` does not build and write the single
file the spec describes — `bag` stays `None`, so line 114 iterates over the
never-assigned `paths` and the run dies with `UnboundLocalError` before any
table is built; nothing is written. -/
theorem c1_remote_unpartitioned_raises :
    create "https://example.com/items.json" "out.parquet" "" 1 remoteWorldOne
      = { dirCreated := false, writes := [], collectionUpdated := none,
          error := some CreateError.unboundLocalPaths } := rfl

/-! ## Claim C3 -/

/-- C3, counterexample: a remote source whose `features` array holds a
record with `type == "Collection"` is written out as-is by the partitioned
path — the non-Feature record is retained in the resulting batch, refuting
the claim that every source kind filters on `type == "Feature"`. -/
theorem c3_counterexample :
    isFeature nonFeatureItem = false
    ∧ (create "https://example.com/items.json" "outdir" "" 2
        { responseFeatures := some [nonFeatureItem], pathExists := false,
          files := [], collectionDoc := [] }).writes
      = [("outdir/part.0.parquet", [nonFeatureItem])] :=
  ⟨rfl, rfl⟩

/-- C3 (amended): the `type == "Feature"` filter is applied only on the
local-directory extraction paths — every record in every batch written for
a non-remote source satisfies it — while for remote sources the `features`
sequence is handed to table building unfiltered (and the unpartitioned
remote path fails before building anything). -/
theorem c3_filter_applies_to_local_sources_only :
    (∀ (source destination collection : String) (partition : Int) (w : World)
        (path : String) (batch : List Json) (item : Json),
        isRemoteSource source = false →
        (path, batch) ∈ (create source destination collection partition w).writes →
        item ∈ batch → isFeature item = true)
    ∧ (∀ (source destination collection : String) (partition : Int) (w : World),
        isRemoteSource source = true → 1 < partition →
        (create source destination collection partition w).writes
          = partitionWrites destination
              (fromSequence (w.responseFeatures.getD []) partition.toNat)) := by
  constructor
  · intro source destination collection partition w path batch item hr hmem hitem
    rcases create_local_writes source destination collection partition w hr with
      hw | ⟨chunks, hw⟩ | hw
    · rw [hw] at hmem
      cases hmem
    · rw [hw] at hmem
      have hb := partitionWritesAux_mem destination (path, batch) _ 0 hmem
      obtain ⟨chunk, -, hchunk⟩ := List.mem_map.mp hb
      have hitem2 : item ∈ (chunk.map FileEntry.content).filter isFeature := by
        rw [hchunk]
        exact hitem
      exact (List.mem_filter.mp hitem2).2
    · rw [hw] at hmem
      have heq := List.mem_singleton.mp hmem
      have hbatch : batch
          = ((collectJsonFiles w.files).map FileEntry.content).filter isFeature :=
        congrArg Prod.snd heq
      rw [hbatch] at hitem
      exact (List.mem_filter.mp hitem).2
  · intro source destination collection partition w hr hp
    unfold create
    rw [if_pos hr, if_pos hp, finishCreate_writes]

/-- C3, witness: the filtering half of the amended theorem applied to the
concrete local run over `localWorld`, whose eager batch contains
`featureItemA`. -/
theorem c3_witness : isFeature featureItemA = true :=
  c3_filter_applies_to_local_sources_only.1 "d" "out.parquet" "" 1 localWorld
    "out.parquet" [featureItemA, featureItemB] featureItemA rfl
    (List.mem_singleton.mpr rfl) (List.mem_cons_self _ _)

/-! ## Claim C4 -/

/-- C4, code bug: a `create` whose extraction yields zero Feature Records
(here: remote body without a `features` key, partition 1) does fail before
any write and creates nothing — but the failure is the `UnboundLocalError`
from the never-assigned `paths`, not the explicit
`"Aborting, no items available"` signal the claim requires. -/
theorem c4_zero_records_wrong_signal :
    create "https://example.com/empty.json" "out.parquet" "" 1 remoteWorldEmpty
      = { dirCreated := false, writes := [], collectionUpdated := none,
          error := some CreateError.unboundLocalPaths } := rfl

/-! ## Claim C5 -/

/-- C5, code bug: a source that is neither a remote URL nor an existing
path leaves both `bag` and `paths` unassigned, so `create` dies with
`UnboundLocalError` at `for p in paths:` — zero records and no artifact,
as the claim says, but not the no-records ("no items available") signal it
requires. -/
theorem c5_invalid_source_wrong_signal :
    create "items-not-a-url" "out.parquet" "" 1 remoteWorldEmpty
      = { dirCreated := false, writes := [], collectionUpdated := none,
          error := some CreateError.unboundLocalPaths } := rfl

/-! ## Claim C7 -/

/-- C7: a file of the recursive walk is collected exactly when its base
name ends in `.json` and is not literally `catalog.json` or
`collection.json`, at any directory depth (the `root` component of a
`FileEntry` is unconstrained); in `create`, records are parsed only from
`collectJsonFiles` output, so the two container documents are never parsed
as items. -/
theorem c7_walk_collects_exactly (files : List FileEntry) (f : FileEntry) :
    f ∈ collectJsonFiles files ↔
      f ∈ files ∧ strEndsWith f.name ".json" = true
        ∧ f.name ≠ "catalog.json" ∧ f.name ≠ "collection.json" := by
  unfold collectJsonFiles
  simp only [List.mem_filter, keepItemFile_iff]

/-! ## Claim C8 -/

/-- C8: in every partitioned `create` run, the write submitted at zero-based
index `i` targets exactly `destination ++ "/part." ++ i ++ ".parquet"`; the
mapping depends only on the destination and the index, hence is
deterministic across runs with the same input. -/
theorem c8_partition_file_names (source destination collection : String)
    (partition : Int) (w : World) (i : Nat) (pb : String × List Json)
    (hp : 1 < partition)
    (h : ((create source destination collection partition w).writes).get? i
      = some pb) :
    pb.1 = destination ++ "/part." ++ Nat.repr i ++ ".parquet" := by
  rcases create_partitioned_writes source destination collection partition w hp with
    hw | ⟨batches, hw⟩
  · rw [hw] at h
    cases h
  · rw [hw] at h
    have hg := partitionWritesAux_get destination batches 0 i pb h
    rwa [Nat.zero_add] at hg

/-- C8, witness: the theorem applied to the partitioned local run over
`localWorld` with 2 partitions, at index 1. -/
theorem c8_witness :
    (create "d" "outdir" "" 2 localWorld).writes.get? 1
        = some ("outdir/part.1.parquet", [featureItemB])
    ∧ "outdir/part.1.parquet" = "outdir" ++ "/part." ++ Nat.repr 1 ++ ".parquet" :=
  ⟨rfl, c8_partition_file_names "d" "outdir" "" 2 localWorld 1
    ("outdir/part.1.parquet", [featureItemB]) (by decide) rfl⟩

/-! ## Claim C9 -/

/-- C9: the Collection Linker contract — (1) with an empty collection path
the document step is a no-op; (2) whenever a non-empty collection path is
supplied and the run raised no exception (so the artifact writes
succeeded), the document written back is exactly the read document updated
in memory, with the asset href the destination path relative to the
collection document's directory; (3) the update creates the `assets`
mapping when absent and inserts/overwrites its `geoparquet-items` key with
exactly the asset `{href, type: "application/x-parquet",
roles: ["stac-items"], title: "GeoParquet STAC Items"}`, leaving every
other top-level key unchanged; (4) the seek-dump-truncate write leaves the
file holding exactly the new serialization, truncating any trailing content
of a longer previous one. -/
theorem c9_collection_linker_contract :
    (∀ (source destination : String) (partition : Int) (w : World),
        (create source destination "" partition w).collectionUpdated = none)
    ∧ (∀ (source destination collection : String) (partition : Int) (w : World),
        0 < collection.length →
        (create source destination collection partition w).error = none →
        (create source destination collection partition w).collectionUpdated
          = some (updateCollectionDoc w.collectionDoc
              (relpath destination (dirname collection))))
    ∧ (∀ (doc : List (String × Json)) (href : String),
        (∀ v, lookupField doc "assets" = some v → ∃ fs, v = Json.obj fs) →
        (∃ fs, lookupField (updateCollectionDoc doc href) "assets"
            = some (Json.obj fs)
          ∧ lookupField fs "geoparquet-items" = some (geoparquetAsset href))
        ∧ ∀ k, k ≠ "assets" →
            lookupField (updateCollectionDoc doc href) k = lookupField doc k)
    ∧ (∀ old new : List Char, rewriteInPlace old new = new) := by
  refine ⟨?_, ?_, updateCollectionDoc_spec, rewriteInPlace_eq⟩
  · intro source destination partition w
    rcases create_cases source destination "" partition w with ⟨-, hcu⟩ | ⟨d, wr, hc⟩
    · exact hcu
    · rw [hc]
      exact finishCreate_empty_collection d wr destination w
  · intro source destination collection partition w hcol herr
    rcases create_cases source destination collection partition w with
      ⟨hne, -⟩ | ⟨d, wr, hc⟩
    · exact absurd herr hne
    · rw [hc]
      exact finishCreate_pos_collection d wr collection destination w hcol

/-- C9, witness: the contract applied to concrete runs — the no-op with an
empty collection path, the successful local run against
`/c/collection.json`, the key-preservation of the document update at key
`id`, and truncation of a longer previous content. -/
theorem c9_witness :
    (create "d" "out.parquet" "" 1 localWorld).collectionUpdated = none
    ∧ (create "d" "out.parquet" "/c/collection.json" 1 localWorld).collectionUpdated
        = some (updateCollectionDoc localWorld.collectionDoc
            (relpath "out.parquet" (dirname "/c/collection.json")))
    ∧ lookupField (updateCollectionDoc [("id", Json.str "c")] "../out.parquet") "id"
        = lookupField [("id", Json.str "c")] "id"
    ∧ rewriteInPlace "an older longer serialization".data "shorter".data
        = "shorter".data :=
  ⟨c9_collection_linker_contract.1 "d" "out.parquet" 1 localWorld,
   c9_collection_linker_contract.2.1 "d" "out.parquet" "/c/collection.json" 1
     localWorld (by decide) rfl,
   (c9_collection_linker_contract.2.2.1 [("id", Json.str "c")] "../out.parquet"
     (fun v h => Option.noConfusion h)).2 "id" (by decide),
   c9_collection_linker_contract.2.2.2 "an older longer serialization".data
     "shorter".data⟩

/-- C10, witness: the theorem applied at the schema `["id", "geometry"]`,
which does not contain the empty string. -/
theorem c10_witness :
    ("" ∉ ["id", "geometry"])
    ∧ convert true ["id", "geometry"] (some "")
        = Except.error ConvertError.valueError :=
  ⟨by decide, c10_empty_exclude_raises.2 ["id", "geometry"] (by decide)⟩

end GeoparquetItems
